import Mathlib

/-!
Shallow embedding of the sync orchestrator in `src/app/(tabs)/index.tsx`
(the only source file of the repository).

The component keeps its UI state in React `useState` cells and persists
three string keys through AsyncStorage.  We model the combined in-memory
and persisted state as `AppState`, and every external platform call that
the handlers await — the contact-list read, the file-info lookup, the two
`fetch` POSTs, the document picker — as a field of an `Env` record holding
the outcome (`Except` for calls that may throw) that the platform would
deliver during the run.  Each handler becomes a total function
`AppState → Env → AppState × List Event`, where the `Event` trace records
the observable effects: blocking alerts, network requests, local reads and
console logs.  The key-value store writes, `setState` calls, `Alert.alert`
and `setTimeout` are modelled as infallible, as the spec assumes; the
fallible operations are exactly the ones carried by `Env`.
-/

namespace CyrusPhones

/-- A contact record as read by `Contacts.getContactsAsync` (fields Name,
PhoneNumbers, Emails, ID). -/
structure Contact where
  id : String
  name : String
  phoneNumbers : List String
  emails : List String
deriving Repr, DecidableEq

/-- One entry of the file listing built by `getFilesFromDirectory`:
`{ uri, name, size, modificationTime }`. -/
structure FileEntry where
  uri : String
  name : String
  size : Nat
  modificationTime : Nat
deriving Repr, DecidableEq

/-- The result of `FileSystem.getInfoAsync`: the fields the code reads
(`exists`, `size`, `modificationTime`; the latter two may be absent). -/
structure FileInfo where
  exists' : Bool
  size : Option Nat
  modificationTime : Option Nat
deriving Repr, DecidableEq

/-- A `fetch` response: its HTTP status, and the outcome of
`response.json()` (which may itself throw). -/
structure Resp where
  status : Nat
  json : Except String String
deriving Repr

/-- `response.ok` of the fetch API: true exactly for a 2xx status. -/
def Resp.ok (r : Resp) : Bool :=
  decide (200 ≤ r.status ∧ r.status ≤ 299)

/-- One asset of a `DocumentPicker.getDocumentAsync` result. -/
structure PickerAsset where
  uri : String
deriving Repr, DecidableEq

/-- A `DocumentPicker.getDocumentAsync` result: the `canceled` flag and the
optional `assets` array. -/
structure PickerResult where
  canceled : Bool
  assets : Option (List PickerAsset)
deriving Repr, DecidableEq

/-- Outcomes the platform delivers to the handlers during one run:
`Except` for the awaited calls whose throw the code guards with
try/catch. `now` is `new Date().toISOString()`, `nowMillis` is
`Date.now()`. -/
structure Env where
  contactRead : Except String (List Contact)
  fileInfo : Except String FileInfo
  fetchContacts : Except String Resp
  fetchFiles : Except String Resp
  pickerResult : Except String PickerResult
  now : String
  nowMillis : Nat
deriving Repr

/-- The three AsyncStorage keys: `contacts_last_sync`, `folder_uri`,
`files_last_sync` (absent = `none`). -/
structure Storage where
  contactsLastSync : Option String
  folderUri : Option String
  filesLastSync : Option String
deriving Repr, DecidableEq

/-- The component state: the `useState` cells plus the persisted
storage. `contactsPermission` and `selectedFolderUri` start as `null`
(`none`); `lastSyncTime` holds the ISO string the `Date` was built from. -/
structure AppState where
  contactsPermission : Option String
  selectedFolderUri : Option String
  contacts : List Contact
  files : List FileEntry
  isLoading : Bool
  lastSyncTime : Option String
  syncStatus : String
  storage : Storage
deriving Repr, DecidableEq

/-- Observable effects of a run: blocking alerts (`Alert.alert`), network
requests (`fetch` to a path), local platform reads (the contact list or
the file-info lookup), and console logs. -/
inductive Event where
  | alert (title msg : String)
  | netRequest (path : String)
  | localRead (domain : String)
  | log (msg : String)
deriving Repr, DecidableEq

/-- Whether a trace contains a blocking alert. -/
def hasAlert (evs : List Event) : Bool :=
  evs.any fun e =>
    match e with
    | .alert _ _ => true
    | _ => false

/-- Whether a trace contains a network request. -/
def hasNetRequest (evs : List Event) : Bool :=
  evs.any fun e =>
    match e with
    | .netRequest _ => true
    | _ => false

/-- Whether a trace contains a local platform read. -/
def hasLocalRead (evs : List Event) : Bool :=
  evs.any fun e =>
    match e with
    | .localRead _ => true
    | _ => false

/-- JavaScript truthiness of a nullable string: `null` and `""` are
falsy. Used for the guards `if (!selectedFolderUri)` and
`if (selectedFolderUri)`. -/
def truthy : Option String → Bool
  | none => false
  | some s => !s.isEmpty

/-- JavaScript `a || d` on a possibly-absent number: absent and `0` are
falsy. Used for `fileInfo.size || 0` and
`fileInfo.modificationTime || Date.now()`. -/
def jsOrNat : Option Nat → Nat → Nat
  | some n, d => if n = 0 then d else n
  | none, d => d

/-- `str.split('/')` on the character list of the string: JS `split` with
a one-character separator — consecutive separators and leading/trailing
separators yield empty segments, and the result is never the empty
array. Structurally recursive so proofs can evaluate it. -/
def splitOnSlash : List Char → List (List Char)
  | [] => [[]]
  | c :: cs =>
      let rest := splitOnSlash cs
      if c = '/' then [] :: rest
      else
        match rest with
        | [] => [[c]]
        | seg :: segs => (c :: seg) :: segs

/-- `directoryUri.split('/').pop()`: the last '/'-separated segment
(`split` never yields an empty array, so `pop` is total). -/
def lastPathSegment (s : String) : String :=
  String.mk ((splitOnSlash s.toList).getLastD [])

/-- `sendContactsToBackend`: POSTs to `/sync-contacts`; a thrown fetch, a
non-2xx status (re-thrown as `HTTP error!`) or a throwing `json()` is
caught and only logged — the function never propagates an error and
touches no state, so it is a pure event trace. -/
def sendContactsToBackend (env : Env) : List Event :=
  Event.netRequest "/sync-contacts" ::
    match env.fetchContacts with
    | .error e =>
        [Event.log ("Backend sync error for contacts: " ++ e),
         Event.log "Continuing with local storage only"]
    | .ok response =>
        if !response.ok then
          [Event.log ("Backend sync error for contacts: HTTP error! status: "
              ++ toString response.status),
           Event.log "Continuing with local storage only"]
        else
          match response.json with
          | .error e =>
              [Event.log ("Backend sync error for contacts: " ++ e),
               Event.log "Continuing with local storage only"]
          | .ok result =>
              [Event.log ("Contacts synced to backend: " ++ result)]

/-- `sendFilesToBackend`: same shape as `sendContactsToBackend`, POSTing
to `/sync-files`. -/
def sendFilesToBackend (env : Env) : List Event :=
  Event.netRequest "/sync-files" ::
    match env.fetchFiles with
    | .error e =>
        [Event.log ("Backend sync error for files: " ++ e),
         Event.log "Continuing with local storage only"]
    | .ok response =>
        if !response.ok then
          [Event.log ("Backend sync error for files: HTTP error! status: "
              ++ toString response.status),
           Event.log "Continuing with local storage only"]
        else
          match response.json with
          | .error e =>
              [Event.log ("Backend sync error for files: " ++ e),
               Event.log "Continuing with local storage only"]
          | .ok result =>
              [Event.log ("Files synced to backend: " ++ result)]

/-- `getFilesFromDirectory(directoryUri)`: one `FileSystem.getInfoAsync`
lookup; if it throws the catch logs and returns `[]`; if the location does
not exist it returns `[]`; otherwise a single entry describing the handle
itself. Total by construction, mirroring the catch-all in the source. -/
def getFilesFromDirectory (directoryUri : String) (env : Env) :
    List FileEntry × List Event :=
  match env.fileInfo with
  | .error e =>
      ([], [Event.localRead "fileInfo", Event.log ("Error getting files: " ++ e)])
  | .ok fileInfo =>
      if fileInfo.exists' then
        ([{ uri := directoryUri,
            name := lastPathSegment directoryUri,
            size := jsOrNat fileInfo.size 0,
            modificationTime := jsOrNat fileInfo.modificationTime env.nowMillis }],
         [Event.localRead "fileInfo"])
      else
        ([], [Event.localRead "fileInfo"])

/-- `syncContacts()`: guard `contactsPermission !== 'granted'` alerts
`Permission Required` and returns; otherwise sets loading/status, reads
the contact list (the one fallible step of its try block — a throw lands
in the catch: log, `Sync Error` alert, failed status), else stores the
contacts, runs the best-effort backend send, writes `contacts_last_sync`
:= now, updates `lastSyncTime` and reports success. `finally` clears
loading on both paths. -/
def syncContacts (s : AppState) (env : Env) : AppState × List Event :=
  if s.contactsPermission ≠ some "granted" then
    (s, [Event.alert "Permission Required" "Please grant contacts permission first."])
  else
    let s1 := { s with isLoading := true, syncStatus := "Syncing contacts..." }
    match env.contactRead with
    | .error e =>
        ({ s1 with syncStatus := "Contacts sync failed", isLoading := false },
         [Event.localRead "contacts",
          Event.log ("Error syncing contacts: " ++ e),
          Event.alert "Sync Error" ("Failed to sync contacts: " ++ e)])
    | .ok data =>
        let s2 := { s1 with contacts := data }
        let sendEvents := sendContactsToBackend env
        let s3 := { s2 with
          storage := { s2.storage with contactsLastSync := some env.now },
          lastSyncTime := some env.now,
          syncStatus := "Contacts synced successfully!",
          isLoading := false }
        (s3, Event.localRead "contacts" :: sendEvents)

/-- `syncFiles()`: guard `!selectedFolderUri` (JS-falsy) alerts
`Folder Required` and returns; otherwise sets loading/status, resolves the
listing via `getFilesFromDirectory` (total), stores it, runs the
best-effort backend send, writes `files_last_sync` := now and reports
success. Every step of its try block is total in this model (the store
write is modelled infallible), so the catch branch of the source is
unreachable here. -/
def syncFiles (s : AppState) (env : Env) : AppState × List Event :=
  if !truthy s.selectedFolderUri then
    (s, [Event.alert "Folder Required" "Please select a folder first."])
  else
    let s1 := { s with isLoading := true, syncStatus := "Syncing files..." }
    let uri := s1.selectedFolderUri.getD ""
    let listing := getFilesFromDirectory uri env
    let s2 := { s1 with files := listing.1 }
    let sendEvents := sendFilesToBackend env
    let s3 := { s2 with
      storage := { s2.storage with filesLastSync := some env.now },
      syncStatus := "Files synced successfully!",
      isLoading := false }
    (s3, listing.2 ++ sendEvents)

/-- `performAutoSync()`: runs `syncContacts` when the permission is
granted, then `syncFiles` when a folder URI is truthy. Both sub-syncs
catch their own failures and return normally, so the surrounding
try/catch of the source (which would skip `syncFiles` on a genuine throw
out of `syncContacts`) is unreachable in this model. -/
def performAutoSync (s : AppState) (env : Env) : AppState × List Event :=
  let step1 :=
    if s.contactsPermission = some "granted" then syncContacts s env else (s, [])
  let step2 :=
    if truthy step1.1.selectedFolderUri then syncFiles step1.1 env else (step1.1, [])
  (step2.1, step1.2 ++ step2.2)

/-- `selectFolder()`: invokes the document picker; a throw is caught
(log + `Error` alert, no state change). On `!result.canceled &&
result.assets && result.assets.length > 0` it stores the first asset URI
in state and in `folder_uri`, alerts success and runs `syncFiles`;
otherwise it does nothing at all. -/
def selectFolder (s : AppState) (env : Env) : AppState × List Event :=
  match env.pickerResult with
  | .error e =>
      (s, [Event.log ("Error selecting folder: " ++ e),
           Event.alert "Error" "Failed to select folder"])
  | .ok result =>
      if result.canceled then (s, [])
      else
        match result.assets with
        | none => (s, [])
        | some [] => (s, [])
        | some (a :: _) =>
            let folderUri := a.uri
            let s1 := { s with
              selectedFolderUri := some folderUri,
              storage := { s.storage with folderUri := some folderUri } }
            let aft := syncFiles s1 env
            (aft.1, Event.alert "Success" "Folder access granted!" :: aft.2)

/-! ### Fixtures: concrete states and environments used by witnesses -/

/-- A fetch response with status 200 and a well-formed JSON body. -/
def respOk : Resp := { status := 200, json := .ok "ack" }

/-- A baseline environment in which every platform call succeeds. -/
def envBase : Env :=
  { contactRead := .ok []
    fileInfo := .ok { exists' := true, size := some 4096, modificationTime := some 1700000000000 }
    fetchContacts := .ok respOk
    fetchFiles := .ok respOk
    pickerResult := .ok { canceled := true, assets := none }
    now := "2026-01-01T00:00:00.000Z"
    nowMillis := 1767225600000 }

/-- The fresh component state: no permission, no folder, nothing synced. -/
def stateBase : AppState :=
  { contactsPermission := none
    selectedFolderUri := none
    contacts := []
    files := []
    isLoading := false
    lastSyncTime := none
    syncStatus := ""
    storage := { contactsLastSync := none, folderUri := none, filesLastSync := none } }

/-- State with contacts permission granted and no folder. -/
def stateGranted : AppState := { stateBase with contactsPermission := some "granted" }

/-- State with permission denied and the mock folder selected. -/
def stateFolderSet : AppState :=
  { stateBase with
    contactsPermission := some "denied"
    selectedFolderUri := some "file:///mock/folder"
    storage := { stateBase.storage with folderUri := some "file:///mock/folder" } }

/-- State with contacts permission granted and the mock folder selected. -/
def stateGrantedFolder : AppState :=
  { stateBase with
    contactsPermission := some "granted"
    selectedFolderUri := some "file:///mock/folder"
    storage := { stateBase.storage with folderUri := some "file:///mock/folder" } }

/-- Environment in which the remote contacts POST throws. -/
def envRemoteDown : Env := { envBase with fetchContacts := .error "Network request failed" }

/-- Environment in which the file-info lookup throws. -/
def envInfoThrows : Env := { envBase with fileInfo := .error "File info read failed" }

/-- Environment in which the file-info lookup reports a missing location. -/
def envNotEx : Env :=
  { envBase with fileInfo := .ok { exists' := false, size := none, modificationTime := none } }

/-- Environment in which the contact-list read throws. -/
def envContactsThrow : Env := { envBase with contactRead := .error "Contacts read failed" }

/-! ### Helper lemmas shared by several claims -/

/-- The best-effort contacts POST never raises a blocking alert: every
outcome of the fetch is caught and only logged. -/
theorem sendContactsToBackend_no_alert (env : Env) :
    hasAlert (sendContactsToBackend env) = false := by
  simp only [sendContactsToBackend, hasAlert]
  cases env.fetchContacts with
  | error e => simp
  | ok r =>
    cases hok : r.ok with
    | true => cases hj : r.json <;> simp [hok, hj]
    | false => simp [hok]

/-- The best-effort files POST never raises a blocking alert. -/
theorem sendFilesToBackend_no_alert (env : Env) :
    hasAlert (sendFilesToBackend env) = false := by
  simp only [sendFilesToBackend, hasAlert]
  cases env.fetchFiles with
  | error e => simp
  | ok r =>
    cases hok : r.ok with
    | true => cases hj : r.json <;> simp [hok, hj]
    | false => simp [hok]

/-- `getFilesFromDirectory` performs the file-info lookup on every path:
its trace always contains the `fileInfo` local read. -/
theorem getFilesFromDirectory_reads (uri : String) (env : Env) :
    Event.localRead "fileInfo" ∈ (getFilesFromDirectory uri env).2 := by
  simp only [getFilesFromDirectory]
  cases env.fileInfo with
  | error e => simp
  | ok info => cases hx : info.exists' <;> simp [hx]

/-- Characterization of a `syncFiles` run past its guard: the listing is
stored, `files_last_sync` is set to now, the success status is shown, and
the trace is the lookup trace followed by the POST trace. -/
theorem syncFiles_run (s : AppState) (env : Env)
    (h : truthy s.selectedFolderUri = true) :
    syncFiles s env =
      ({ s with
          files := (getFilesFromDirectory (s.selectedFolderUri.getD "") env).1,
          isLoading := false,
          syncStatus := "Files synced successfully!",
          storage := { s.storage with filesLastSync := some env.now } },
       (getFilesFromDirectory (s.selectedFolderUri.getD "") env).2 ++
         sendFilesToBackend env) := by
  simp [syncFiles, h]

/-- `hasAlert` distributes over list concatenation. -/
theorem hasAlert_append (l1 l2 : List Event) :
    hasAlert (l1 ++ l2) = (hasAlert l1 || hasAlert l2) := by
  simp [hasAlert]

/-- `getFilesFromDirectory` never raises a blocking alert. -/
theorem getFilesFromDirectory_no_alert (uri : String) (env : Env) :
    hasAlert (getFilesFromDirectory uri env).2 = false := by
  simp only [getFilesFromDirectory]
  cases env.fileInfo with
  | error e => simp [hasAlert]
  | ok info => cases hx : info.exists' <;> simp [hx, hasAlert]

/-- Characterization of a `syncContacts` run past its guard with a
successful contact read: contacts stored, `contacts_last_sync` and
`lastSyncTime` set to now, success status, the read plus the POST trace. -/
theorem syncContacts_run_ok (s : AppState) (env : Env) (data : List Contact)
    (hperm : s.contactsPermission = some "granted")
    (hread : env.contactRead = .ok data) :
    syncContacts s env =
      ({ s with
          contacts := data,
          isLoading := false,
          lastSyncTime := some env.now,
          syncStatus := "Contacts synced successfully!",
          storage := { s.storage with contactsLastSync := some env.now } },
       Event.localRead "contacts" :: sendContactsToBackend env) := by
  simp [syncContacts, hperm, hread]

/-- Characterization of a `syncContacts` run past its guard whose contact
read throws: no storage change, failed status, log plus `Sync Error`
alert. -/
theorem syncContacts_run_err (s : AppState) (env : Env) (e : String)
    (hperm : s.contactsPermission = some "granted")
    (hread : env.contactRead = .error e) :
    syncContacts s env =
      ({ s with isLoading := false, syncStatus := "Contacts sync failed" },
       [Event.localRead "contacts",
        Event.log ("Error syncing contacts: " ++ e),
        Event.alert "Sync Error" ("Failed to sync contacts: " ++ e)]) := by
  simp [syncContacts, hperm, hread]

/-! ### Claim theorems -/

/-- C1: in every `syncContacts` run where the permission is granted, the
local contact read succeeds, and the POST to `/sync-contacts` throws or
returns a non-2xx status, `contacts_last_sync` is still set to the
current time, the success status is reported, and no error is surfaced
to the user (no blocking alert anywhere in the trace). -/
theorem syncContacts_remote_failure_swallowed
    (s : AppState) (env : Env) (data : List Contact)
    (hperm : s.contactsPermission = some "granted")
    (hread : env.contactRead = .ok data)
    (_hfail : (∃ e, env.fetchContacts = .error e) ∨
              (∃ r, env.fetchContacts = .ok r ∧ r.ok = false)) :
    (syncContacts s env).1.storage.contactsLastSync = some env.now ∧
    (syncContacts s env).1.lastSyncTime = some env.now ∧
    (syncContacts s env).1.syncStatus = "Contacts synced successfully!" ∧
    hasAlert (syncContacts s env).2 = false := by
  rw [syncContacts_run_ok s env data hperm hread]
  refine ⟨rfl, rfl, rfl, ?_⟩
  have h2 := sendContactsToBackend_no_alert env
  simp [hasAlert] at h2 ⊢
  exact h2

/-- C1 witness: permission granted, empty contact list read, remote POST
throws a network error. -/
theorem syncContacts_remote_failure_swallowed_witness :
    (syncContacts stateGranted envRemoteDown).1.storage.contactsLastSync =
      some envRemoteDown.now ∧
    (syncContacts stateGranted envRemoteDown).1.lastSyncTime = some envRemoteDown.now ∧
    (syncContacts stateGranted envRemoteDown).1.syncStatus =
      "Contacts synced successfully!" ∧
    hasAlert (syncContacts stateGranted envRemoteDown).2 = false :=
  syncContacts_remote_failure_swallowed stateGranted envRemoteDown [] rfl rfl
    (Or.inl ⟨"Network request failed", rfl⟩)

/-- C4: in every `syncContacts` run where the permission is granted and
the local contact read throws, `contacts_last_sync` and `lastSyncTime`
are unchanged and the failure is surfaced: a blocking `Sync Error` alert
carrying the message, plus the failed status. -/
theorem syncContacts_local_read_throw_surfaced
    (s : AppState) (env : Env) (e : String)
    (hperm : s.contactsPermission = some "granted")
    (hread : env.contactRead = .error e) :
    (syncContacts s env).1.storage.contactsLastSync = s.storage.contactsLastSync ∧
    (syncContacts s env).1.lastSyncTime = s.lastSyncTime ∧
    (syncContacts s env).1.syncStatus = "Contacts sync failed" ∧
    Event.alert "Sync Error" ("Failed to sync contacts: " ++ e) ∈
      (syncContacts s env).2 := by
  rw [syncContacts_run_err s env e hperm hread]
  exact ⟨rfl, rfl, rfl, by simp⟩

/-- C4 witness: permission granted, contact read throws. -/
theorem syncContacts_local_read_throw_surfaced_witness :
    (syncContacts stateGranted envContactsThrow).1.storage.contactsLastSync =
      stateGranted.storage.contactsLastSync ∧
    (syncContacts stateGranted envContactsThrow).1.lastSyncTime =
      stateGranted.lastSyncTime ∧
    (syncContacts stateGranted envContactsThrow).1.syncStatus = "Contacts sync failed" ∧
    Event.alert "Sync Error" ("Failed to sync contacts: " ++ "Contacts read failed") ∈
      (syncContacts stateGranted envContactsThrow).2 :=
  syncContacts_local_read_throw_surfaced stateGranted envContactsThrow
    "Contacts read failed" rfl rfl

/-- C5: for every permission state other than granted, `syncContacts`
returns the state unchanged (in particular `contacts_last_sync` and the
in-memory contact list), performs no local read and no network request,
and signals `Permission Required`. -/
theorem syncContacts_not_granted_noop (s : AppState) (env : Env)
    (h : s.contactsPermission ≠ some "granted") :
    syncContacts s env =
      (s, [Event.alert "Permission Required" "Please grant contacts permission first."]) ∧
    hasLocalRead (syncContacts s env).2 = false ∧
    hasNetRequest (syncContacts s env).2 = false := by
  have heq : syncContacts s env =
      (s, [Event.alert "Permission Required" "Please grant contacts permission first."]) := by
    simp [syncContacts, h]
  refine ⟨heq, ?_, ?_⟩ <;> rw [heq] <;> rfl

/-- C5 witness: the fresh state, whose permission is still null. -/
theorem syncContacts_not_granted_noop_witness :
    syncContacts stateBase envBase =
      (stateBase,
       [Event.alert "Permission Required" "Please grant contacts permission first."]) ∧
    hasLocalRead (syncContacts stateBase envBase).2 = false ∧
    hasNetRequest (syncContacts stateBase envBase).2 = false :=
  syncContacts_not_granted_noop stateBase envBase (by decide)

/-- C6: for every `syncFiles` call with no folder handle set, the state
is returned unchanged (in particular `files_last_sync` and the in-memory
file list), no file lookup and no network request are performed, and
`Folder Required` is signalled. -/
theorem syncFiles_no_folder_noop (s : AppState) (env : Env)
    (h : s.selectedFolderUri = none) :
    syncFiles s env =
      (s, [Event.alert "Folder Required" "Please select a folder first."]) ∧
    hasLocalRead (syncFiles s env).2 = false ∧
    hasNetRequest (syncFiles s env).2 = false := by
  have ht : truthy s.selectedFolderUri = false := by rw [h]; rfl
  have heq : syncFiles s env =
      (s, [Event.alert "Folder Required" "Please select a folder first."]) := by
    simp [syncFiles, ht]
  refine ⟨heq, ?_, ?_⟩ <;> rw [heq] <;> rfl

/-- C6 witness: the fresh state, with no folder selected. -/
theorem syncFiles_no_folder_noop_witness :
    syncFiles stateBase envBase =
      (stateBase, [Event.alert "Folder Required" "Please select a folder first."]) ∧
    hasLocalRead (syncFiles stateBase envBase).2 = false ∧
    hasNetRequest (syncFiles stateBase envBase).2 = false :=
  syncFiles_no_folder_noop stateBase envBase rfl

/-- C7: every `performAutoSync` run with the contacts permission denied
and no folder handle set returns the state unchanged with an empty trace:
zero local reads and zero network requests. -/
theorem performAutoSync_denied_no_folder_noop (s : AppState) (env : Env)
    (hperm : s.contactsPermission = some "denied")
    (hfolder : s.selectedFolderUri = none) :
    performAutoSync s env = (s, []) ∧
    hasLocalRead (performAutoSync s env).2 = false ∧
    hasNetRequest (performAutoSync s env).2 = false := by
  have heq : performAutoSync s env = (s, []) := by
    simp [performAutoSync, hperm, hfolder, truthy]
  exact ⟨heq, by rw [heq]; rfl, by rw [heq]; rfl⟩

/-- C7 witness: permission denied, no folder. -/
theorem performAutoSync_denied_no_folder_noop_witness :
    performAutoSync { stateBase with contactsPermission := some "denied" } envBase =
      ({ stateBase with contactsPermission := some "denied" }, []) ∧
    hasLocalRead
      (performAutoSync { stateBase with contactsPermission := some "denied" } envBase).2 =
      false ∧
    hasNetRequest
      (performAutoSync { stateBase with contactsPermission := some "denied" } envBase).2 =
      false :=
  performAutoSync_denied_no_folder_noop
    { stateBase with contactsPermission := some "denied" } envBase rfl rfl

/-- C3: in every `performAutoSync` run where the permission is granted, a
folder handle is set, and the contacts sub-sync fails (its contact read
throws — the error is caught inside `syncContacts`, logged and never
re-thrown), `syncFiles` is still attempted: the file-info lookup appears
in the trace and `files_last_sync` is written, while the contacts error
shows up only as a log entry. -/
theorem performAutoSync_contacts_failure_still_files
    (s : AppState) (env : Env) (e : String)
    (hperm : s.contactsPermission = some "granted")
    (hfolder : truthy s.selectedFolderUri = true)
    (hread : env.contactRead = .error e) :
    Event.localRead "fileInfo" ∈ (performAutoSync s env).2 ∧
    (performAutoSync s env).1.storage.filesLastSync = some env.now ∧
    Event.log ("Error syncing contacts: " ++ e) ∈ (performAutoSync s env).2 := by
  have h1 := syncContacts_run_err s env e hperm hread
  have hfolder1 :
      truthy ({ s with isLoading := false,
                       syncStatus := "Contacts sync failed" } : AppState).selectedFolderUri =
        true := hfolder
  have h2 := syncFiles_run
    ({ s with isLoading := false, syncStatus := "Contacts sync failed" }) env hfolder1
  simp only [hperm] at h2
  refine ⟨?_, ?_, ?_⟩ <;>
    simp [performAutoSync, hperm, h1, hfolder, h2, getFilesFromDirectory_reads]

/-- C3 witness: granted permission, mock folder, throwing contact read. -/
theorem performAutoSync_contacts_failure_still_files_witness :
    Event.localRead "fileInfo" ∈ (performAutoSync stateGrantedFolder envContactsThrow).2 ∧
    (performAutoSync stateGrantedFolder envContactsThrow).1.storage.filesLastSync =
      some envContactsThrow.now ∧
    Event.log ("Error syncing contacts: " ++ "Contacts read failed") ∈
      (performAutoSync stateGrantedFolder envContactsThrow).2 :=
  performAutoSync_contacts_failure_still_files stateGrantedFolder envContactsThrow
    "Contacts read failed" rfl (by decide) rfl

/-- C2 counterexample: with the mock folder set and a file-info lookup
that throws, `syncFiles` does NOT mark the sync failed — the throw is
caught inside `getFilesFromDirectory`, which returns `[]`, so
`files_last_sync` IS written, the success status is shown, and no alert
is raised; the claim as stated is false on this input. -/
theorem syncFiles_fileinfo_throw_counterexample :
    (syncFiles stateFolderSet envInfoThrows).1.storage.filesLastSync =
      some "2026-01-01T00:00:00.000Z" ∧
    (syncFiles stateFolderSet envInfoThrows).1.syncStatus = "Files synced successfully!" ∧
    (syncFiles stateFolderSet envInfoThrows).1.files = [] ∧
    hasAlert (syncFiles stateFolderSet envInfoThrows).2 = false := by
  refine ⟨rfl, rfl, rfl, rfl⟩

/-- C2 amended: in every `syncFiles` run with a folder handle set whose
file-info lookup throws, the error is caught inside
`getFilesFromDirectory` and the empty listing returned, so the sync
completes as a success: the in-memory file list becomes empty,
`files_last_sync` is updated to the current time, the success status is
reported, and no alert is surfaced. -/
theorem syncFiles_fileinfo_throw_succeeds
    (s : AppState) (env : Env) (e : String)
    (hfolder : truthy s.selectedFolderUri = true)
    (hinfo : env.fileInfo = .error e) :
    (syncFiles s env).1.storage.filesLastSync = some env.now ∧
    (syncFiles s env).1.files = [] ∧
    (syncFiles s env).1.syncStatus = "Files synced successfully!" ∧
    hasAlert (syncFiles s env).2 = false := by
  rw [syncFiles_run s env hfolder]
  refine ⟨rfl, ?_, rfl, ?_⟩
  · simp [getFilesFromDirectory, hinfo]
  · rw [hasAlert_append, getFilesFromDirectory_no_alert, sendFilesToBackend_no_alert]
    rfl

/-- C2 amended witness: mock folder set, file-info lookup throws. -/
theorem syncFiles_fileinfo_throw_succeeds_witness :
    (syncFiles stateFolderSet envInfoThrows).1.storage.filesLastSync =
      some envInfoThrows.now ∧
    (syncFiles stateFolderSet envInfoThrows).1.files = [] ∧
    (syncFiles stateFolderSet envInfoThrows).1.syncStatus = "Files synced successfully!" ∧
    hasAlert (syncFiles stateFolderSet envInfoThrows).2 = false :=
  syncFiles_fileinfo_throw_succeeds stateFolderSet envInfoThrows
    "File info read failed" (by decide) rfl

/-- C8: for every folder handle whose file-info lookup reports an
existing file, the listing computed by `getFilesFromDirectory` is exactly
one entry, and its name is the last '/'-separated segment of the
handle. -/
theorem getFilesFromDirectory_single_entry
    (uri : String) (env : Env) (info : FileInfo)
    (hinfo : env.fileInfo = .ok info) (hex : info.exists' = true) :
    (getFilesFromDirectory uri env).1.map FileEntry.name = [lastPathSegment uri] ∧
    (getFilesFromDirectory uri env).1.length = 1 := by
  simp [getFilesFromDirectory, hinfo, hex]

/-- C8 witness: the handle `file:///mock/folder` yields the single name
`folder`. -/
theorem getFilesFromDirectory_single_entry_witness :
    (getFilesFromDirectory "file:///mock/folder" envBase).1.map FileEntry.name =
      ["folder"] ∧
    (getFilesFromDirectory "file:///mock/folder" envBase).1.length = 1 := by
  have h := getFilesFromDirectory_single_entry "file:///mock/folder" envBase
    { exists' := true, size := some 4096, modificationTime := some 1700000000000 } rfl rfl
  exact ⟨by rw [h.1]; decide, h.2⟩

/-- C9: for every `selectFolder` invocation whose document picker returns
a cancelled result, a missing assets array, or an empty one, the state —
including the stored `folder_uri` and the in-memory folder — is returned
unchanged and the trace is empty: no file sync is triggered. -/
theorem selectFolder_cancelled_noop (s : AppState) (env : Env) (res : PickerResult)
    (hres : env.pickerResult = .ok res)
    (h : res.canceled = true ∨ res.assets = none ∨ res.assets = some []) :
    selectFolder s env = (s, []) := by
  simp only [selectFolder, hres]
  rcases h with hc | ha | ha
  · simp [hc]
  · cases hcanc : res.canceled <;> simp [ha, hcanc]
  · cases hcanc : res.canceled <;> simp [ha, hcanc]

/-- C9 witness: a cancelled picker result on the fresh state. -/
theorem selectFolder_cancelled_noop_witness :
    selectFolder stateBase envBase = (stateBase, []) :=
  selectFolder_cancelled_noop stateBase envBase
    { canceled := true, assets := none } rfl (Or.inl rfl)

/-- C10: `getFilesFromDirectory` is total — the catch-all in its body
makes every path return a value (in this embedding its type already
returns a plain listing, never an error) — and its listing is empty both
when the file-info lookup throws and when the lookup reports that the
location does not exist. -/
theorem getFilesFromDirectory_total_empty (uri : String) (env : Env) :
    (∀ e, env.fileInfo = .error e → (getFilesFromDirectory uri env).1 = []) ∧
    (∀ info, env.fileInfo = .ok info → info.exists' = false →
      (getFilesFromDirectory uri env).1 = []) := by
  constructor
  · intro e he
    simp [getFilesFromDirectory, he]
  · intro info hi hx
    simp [getFilesFromDirectory, hi, hx]

/-- C10 witness: a throwing lookup and a missing location both produce
the empty listing. -/
theorem getFilesFromDirectory_total_empty_witness :
    (getFilesFromDirectory "file:///mock/folder" envInfoThrows).1 = [] ∧
    (getFilesFromDirectory "file:///mock/folder" envNotEx).1 = [] :=
  ⟨(getFilesFromDirectory_total_empty "file:///mock/folder" envInfoThrows).1
      "File info read failed" rfl,
   (getFilesFromDirectory_total_empty "file:///mock/folder" envNotEx).2
      { exists' := false, size := none, modificationTime := none } rfl rfl⟩

end CyrusPhones
